import Mathlib

/-
Verification of src/pysmt/optimization/goal.py (pySMT optimization goals).

The module defines a class `Goal` with five isinstance-based kind predicates
and a method `is_simple_goal`, and five concrete subclasses:
`MaximizationGoal`, `MinimizationGoal`, `MinMaxGoal`, `MaxMinGoal`,
`MaxSMTGoal`.  We embed the runtime objects of this hierarchy and the
Python-3 semantics of the operations appearing in the file: attribute
storage, `list.extend` on an aliased list (modelled with an explicit heap of
list objects), and the lazy single-use `zip` object stored by
`MaxSMTGoal.__init__`.
-/

namespace PysmtGoal

/-- Python runtime errors that the modelled operations can raise. -/
inductive PyErr where
  | attributeError
  | typeError
deriving DecidableEq

/-- State of a CPython `zip` object built from two list arguments, as created
by `zip(clause, weight)` in `MaxSMTGoal.__init__`.  The fields are the
elements the object has not yet produced; a freshly created object holds both
argument lists in full.  A `zip` object is a lazy iterator: it yields pairs
until the shorter input runs out, and once drained it yields nothing ever
again.  -/
structure ZipObj (α β : Type) where
  xs : List α
  ys : List β
deriving DecidableEq

/-- Iterating a `zip` object to exhaustion (`list(z)`, or a for-loop over it):
produces the positional pairs of the remaining elements, truncated to the
shorter list, and leaves the object exhausted (an exhausted `zip` object
yields nothing on any further iteration, which we represent by emptying both
fields).  Iteration never raises. -/
def ZipObj.drain {α β : Type} (z : ZipObj α β) : List (α × β) × ZipObj α β :=
  (z.xs.zip z.ys, ⟨[], []⟩)

/-- The Python-3 method call `z.append(p)` on a `zip` object: `zip` objects
define no attribute `append`, so attribute lookup raises `AttributeError`
(`'zip' object has no attribute 'append'`), regardless of the argument. -/
def ZipObj.append {α β : Type} (_ : ZipObj α β) (_ : α × β) :
    Except PyErr (ZipObj α β) :=
  .error .attributeError

/-- A heap of Python list objects: addresses are indices into this list of
lists.  `MinMaxGoal`/`MaxMinGoal` store `self.term = terms`, a reference to
the caller's list object, so their state is an address into this heap and
`add_terms` mutates the heap cell in place. -/
def ListHeap (α : Type) : Type := List (List α)

/-- Reading the list object at address `a` (out-of-range reads, which never
occur for a reference obtained from a live object, give `[]`). -/
def ListHeap.deref {α : Type} (h : ListHeap α) (a : Nat) : List α :=
  List.getD h a []

/-- The in-place mutation `l.extend(es)` on the list object at address `a`:
the cell's contents become the old contents followed by `es`; every other
cell, and every reference to the cell, is unchanged. -/
def ListHeap.extendAt {α : Type} (h : ListHeap α) (a : Nat) (es : List α) :
    ListHeap α :=
  List.set h a (ListHeap.deref h a ++ es)

/-- Runtime objects of the `Goal` class hierarchy.

* `base`: a bare `Goal()` instance.  The class body only documents
  "Attention: this class is not instantiable"; nothing in the code prevents
  direct instantiation, so the bare object exists at runtime.
* `maximization f` / `minimization f`: `MaximizationGoal(f)` /
  `MinimizationGoal(f)`, storing `self.formula = formula`.
* `minmax a` / `maxmin a`: `MinMaxGoal(terms)` / `MaxMinGoal(terms)`, storing
  `self.term = terms` — a reference (heap address `a`) to the caller's list
  object, not a copy.
* `maxsmt z`: `MaxSMTGoal(clause, weight)`, storing
  `self.soft = zip(clause, weight)` — the `zip` object `z`, not a list.

Formulas (`FNode`s) are opaque to this module, hence the type parameter `α`;
MaxSMT weights are modelled as integers. -/
inductive GoalObj (α : Type) where
  | base
  | maximization (formula : α)
  | minimization (formula : α)
  | minmax (term : Nat)
  | maxmin (term : Nat)
  | maxsmt (soft : ZipObj α Int)
deriving DecidableEq

variable {α : Type}

/-- `Goal.is_maximization_goal`: `isinstance(self, MaximizationGoal)`. -/
def GoalObj.is_maximization_goal : GoalObj α → Bool
  | .maximization _ => true
  | _ => false

/-- `Goal.is_minimization_goal`: `isinstance(self, MinimizationGoal)`. -/
def GoalObj.is_minimization_goal : GoalObj α → Bool
  | .minimization _ => true
  | _ => false

/-- `Goal.is_minmax_goal`: `isinstance(self, MinMaxGoal)`. -/
def GoalObj.is_minmax_goal : GoalObj α → Bool
  | .minmax _ => true
  | _ => false

/-- `Goal.is_maxmin_goal`: `isinstance(self, MaxMinGoal)`. -/
def GoalObj.is_maxmin_goal : GoalObj α → Bool
  | .maxmin _ => true
  | _ => false

/-- `Goal.is_maxsmt_goal`: `isinstance(self, MaxSMTGoal)`. -/
def GoalObj.is_maxsmt_goal : GoalObj α → Bool
  | .maxsmt _ => true
  | _ => false

/-- Method dispatch for `is_simple_goal()`: `MaximizationGoal`,
`MinimizationGoal`, `MinMaxGoal` and `MaxMinGoal` each override it to
`return True`; `MaxSMTGoal` and a bare `Goal` fall through to the root
definition `return False`. -/
def GoalObj.is_simple_goal : GoalObj α → Bool
  | .maximization _ => true
  | .minimization _ => true
  | .minmax _ => true
  | .maxmin _ => true
  | _ => false

/-- `MaximizationGoal.__init__(self, formula)`: stores
`self.formula = formula`. -/
def MaximizationGoal.init (formula : α) : GoalObj α :=
  .maximization formula

/-- `MinimizationGoal.__init__(self, formula)`: stores
`self.formula = formula`. -/
def MinimizationGoal.init (formula : α) : GoalObj α :=
  .minimization formula

/-- `MinMaxGoal.__init__(self, terms)`: stores `self.term = terms`, a
reference to the caller's list object at heap address `terms` — no copy is
made. -/
def MinMaxGoal.init (terms : Nat) : GoalObj α :=
  .minmax terms

/-- `MaxMinGoal.__init__(self, terms)`: stores `self.term = terms`, a
reference to the caller's list object at heap address `terms` — no copy is
made. -/
def MaxMinGoal.init (terms : Nat) : GoalObj α :=
  .maxmin terms

/-- `MaxSMTGoal.__init__(self, clause, weight)`: stores
`self.soft = zip(clause, weight)`.  Creating the `zip` object performs no
length validation and consumes nothing; construction always succeeds (the
return type is not `Except`: no code path raises). -/
def MaxSMTGoal.init (clause : List α) (weight : List Int) : GoalObj α :=
  .maxsmt ⟨clause, weight⟩

/-- The method call `g.term()`.  `MaximizationGoal.term` and
`MinimizationGoal.term` execute `return self.formula`.  On a
`MinMaxGoal`/`MaxMinGoal` the attribute `term` is the stored list, and
calling a list raises `TypeError`; on a bare `Goal` or a `MaxSMTGoal` the
attribute does not exist, raising `AttributeError`. -/
def GoalObj.termAccess : GoalObj α → Except PyErr α
  | .maximization f => .ok f
  | .minimization f => .ok f
  | .minmax _ => .error .typeError
  | .maxmin _ => .error .typeError
  | _ => .error .attributeError

/-- The method call `g.terms()`.  `MinMaxGoal.terms` and `MaxMinGoal.terms`
execute `return self.term`: they hand back the stored reference to the
internal list object itself (its heap address), not a copy of its contents.
No other class defines `terms`. -/
def GoalObj.termsAccess : GoalObj α → Except PyErr Nat
  | .minmax a => .ok a
  | .maxmin a => .ok a
  | _ => .error .attributeError

/-- `MinMaxGoal.add_terms(self, *terms)` / `MaxMinGoal.add_terms`: executes
`self.term.extend(list(terms))`, mutating in place the list object that
`self.term` refers to.  The goal object itself is unchanged; only the heap
cell at the stored address changes.  No other class defines `add_terms`. -/
def GoalObj.add_terms (g : GoalObj α) (es : List α) (h : ListHeap α) :
    Except PyErr (ListHeap α) :=
  match g with
  | .minmax a => .ok (ListHeap.extendAt h a es)
  | .maxmin a => .ok (ListHeap.extendAt h a es)
  | _ => .error .attributeError

/-- `MaxSMTGoal.add_soft_clause(self, clause, weight)`: executes
`self.soft.append((clause, weight))`.  `self.soft` is the `zip` object set
in `__init__` (it is never reassigned), so the `append` lookup raises
`AttributeError`.  On any other class the method does not exist. -/
def GoalObj.add_soft_clause (g : GoalObj α) (c : α) (w : Int) :
    Except PyErr (GoalObj α) :=
  match g with
  | .maxsmt z => (ZipObj.append z (c, w)).map GoalObj.maxsmt
  | _ => .error .attributeError

/-- Iterating the soft clause/weight pairs of a goal (the consumer-side read
`for (c, w) in goal.soft`, e.g. by an optimizer): on a `MaxSMTGoal` this
drains the stored `zip` object, yielding its remaining pairs and leaving the
iterator exhausted; the iteration itself never raises.  Other goals have no
`soft` attribute. -/
def GoalObj.iterSoft (g : GoalObj α) :
    Except PyErr (List (α × Int) × GoalObj α) :=
  match g with
  | .maxsmt z => .ok ((ZipObj.drain z).1, .maxsmt (ZipObj.drain z).2)
  | _ => .error .attributeError

/-- C1: the claim states that after `MaxSMTGoal([c1,c2],[w1,w2])` and
`add_soft_clause(c3,w3)` the stored pair sequence equals
`[(c1,w1),(c2,w2),(c3,w3)]`.  The code instead raises `AttributeError` at the
`add_soft_clause` call — `self.soft` is a `zip` object, which has no `append`
method — leaving no three-pair sequence; evaluated here at clauses `[1,2]`,
weights `[5,7]`, appended pair `(3,9)`. -/
theorem add_soft_clause_raises_attribute_error :
    GoalObj.add_soft_clause (MaxSMTGoal.init [1, 2] [5, 7]) 3 (9 : Int)
      = Except.error PyErr.attributeError := by
  rfl

/-- C2: the claim states that `MaxSMTGoal(clause, weight)` with inputs of
different lengths fails at construction.  The code's
`self.soft = zip(clause, weight)` raises nothing (the constructor's type is
not fallible at all) and the pairing silently truncates to the shorter
input: with clauses `[1,2]` and the single weight `[5]`, construction
succeeds and iterating the stored pairs yields only `[(1,5)]`. -/
theorem mismatched_lengths_construct_and_truncate :
    MaxSMTGoal.init [1, 2] [(5 : Int)] = GoalObj.maxsmt ⟨[1, 2], [5]⟩
    ∧ (GoalObj.iterSoft (MaxSMTGoal.init [1, 2] [(5 : Int)])).map Prod.fst
        = Except.ok [(1, (5 : Int))] := by
  exact ⟨rfl, rfl⟩

/-- C3: the claim states that reading the soft pair sequence any number of
times always yields the same sequence.  The stored `zip` object is a
single-use iterator: for `MaxSMTGoal([1],[5])`, the first read yields
`[(1,5)]` and the second read yields `[]` — the first read consumed the
stored pairing. -/
theorem second_soft_read_is_empty :
    (do
      let p₁ ← GoalObj.iterSoft (MaxSMTGoal.init [(1 : Nat)] [(5 : Int)])
      let p₂ ← GoalObj.iterSoft p₁.2
      pure (p₁.1, p₂.1))
      = Except.ok ([((1 : Nat), (5 : Int))], ([] : List (Nat × Int))) := by
  rfl

/-- C4: for every concrete goal instance (every runtime object other than a
bare `Goal`), exactly one of the five kind predicates returns true, and the
true one is exactly the one matching the instance's variant. -/
theorem exactly_one_kind_predicate (g : GoalObj α) (hg : g ≠ GoalObj.base) :
    [g.is_maximization_goal, g.is_minimization_goal, g.is_minmax_goal,
        g.is_maxmin_goal, g.is_maxsmt_goal].count true = 1
    ∧ (g.is_maximization_goal = true ↔ ∃ f, g = GoalObj.maximization f)
    ∧ (g.is_minimization_goal = true ↔ ∃ f, g = GoalObj.minimization f)
    ∧ (g.is_minmax_goal = true ↔ ∃ a, g = GoalObj.minmax a)
    ∧ (g.is_maxmin_goal = true ↔ ∃ a, g = GoalObj.maxmin a)
    ∧ (g.is_maxsmt_goal = true ↔ ∃ z, g = GoalObj.maxsmt z) := by
  cases g <;>
    simp_all [GoalObj.is_maximization_goal, GoalObj.is_minimization_goal,
      GoalObj.is_minmax_goal, GoalObj.is_maxmin_goal, GoalObj.is_maxsmt_goal,
      List.count_cons, List.count_nil]

/-- Witness for C4 at the concrete instance `MaximizationGoal(0)` over
natural-number formulas. -/
theorem exactly_one_kind_predicate_witness :
    [(GoalObj.maximization (0 : Nat)).is_maximization_goal,
        (GoalObj.maximization (0 : Nat)).is_minimization_goal,
        (GoalObj.maximization (0 : Nat)).is_minmax_goal,
        (GoalObj.maximization (0 : Nat)).is_maxmin_goal,
        (GoalObj.maximization (0 : Nat)).is_maxsmt_goal].count true = 1
    ∧ ((GoalObj.maximization (0 : Nat)).is_maximization_goal = true
        ↔ ∃ f, GoalObj.maximization (0 : Nat) = GoalObj.maximization f)
    ∧ ((GoalObj.maximization (0 : Nat)).is_minimization_goal = true
        ↔ ∃ f, GoalObj.maximization (0 : Nat) = GoalObj.minimization f)
    ∧ ((GoalObj.maximization (0 : Nat)).is_minmax_goal = true
        ↔ ∃ a, GoalObj.maximization (0 : Nat) = GoalObj.minmax a)
    ∧ ((GoalObj.maximization (0 : Nat)).is_maxmin_goal = true
        ↔ ∃ a, GoalObj.maximization (0 : Nat) = GoalObj.maxmin a)
    ∧ ((GoalObj.maximization (0 : Nat)).is_maxsmt_goal = true
        ↔ ∃ z, GoalObj.maximization (0 : Nat) = GoalObj.maxsmt z) :=
  exactly_one_kind_predicate (GoalObj.maximization 0) (by decide)

/-- C5: `is_simple_goal()` returns true on every `MaximizationGoal`,
`MinimizationGoal`, `MinMaxGoal` and `MaxMinGoal`, and false on every
`MaxSMTGoal` and on a bare `Goal`, both of which fall through to the root
class default `return False`. -/
theorem is_simple_goal_by_variant (f : α) (a : Nat) (z : ZipObj α Int) :
    (GoalObj.maximization f).is_simple_goal = true
    ∧ (GoalObj.minimization f).is_simple_goal = true
    ∧ (GoalObj.minmax a : GoalObj α).is_simple_goal = true
    ∧ (GoalObj.maxmin a : GoalObj α).is_simple_goal = true
    ∧ (GoalObj.maxsmt z).is_simple_goal = false
    ∧ (GoalObj.base : GoalObj α).is_simple_goal = false := by
  exact ⟨rfl, rfl, rfl, rfl, rfl, rfl⟩

/-- C6: for a `MinMaxGoal` (resp. `MaxMinGoal`) built over the caller's list
at a live address `a` holding sequence `T`, `add_terms(E)` succeeds, and
reading the list that a subsequent `terms()` call refers to yields exactly
`T ++ E` — the append goes at the end and preserves order. -/
theorem add_terms_appends_in_order (h : ListHeap α) (a : Nat) (E : List α)
    (ha : a < h.length) :
    GoalObj.add_terms (MinMaxGoal.init a : GoalObj α) E h
        = Except.ok (ListHeap.extendAt h a E)
    ∧ GoalObj.add_terms (MaxMinGoal.init a : GoalObj α) E h
        = Except.ok (ListHeap.extendAt h a E)
    ∧ GoalObj.termsAccess (MinMaxGoal.init a : GoalObj α) = Except.ok a
    ∧ GoalObj.termsAccess (MaxMinGoal.init a : GoalObj α) = Except.ok a
    ∧ ListHeap.deref (ListHeap.extendAt h a E) a = ListHeap.deref h a ++ E := by
  refine ⟨rfl, rfl, rfl, rfl, ?_⟩
  simp [ListHeap.extendAt, ListHeap.deref, List.getD, List.getElem?_set_self,
    ha]

/-- Witness for C6: heap with one list `[10, 20]` at address `0`, appending
`[30]` gives `[10, 20, 30]`. -/
theorem add_terms_appends_in_order_witness :
    GoalObj.add_terms (MinMaxGoal.init 0 : GoalObj Nat) [30] [[10, 20]]
        = Except.ok (ListHeap.extendAt [[10, 20]] 0 [30])
    ∧ GoalObj.add_terms (MaxMinGoal.init 0 : GoalObj Nat) [30] [[10, 20]]
        = Except.ok (ListHeap.extendAt [[10, 20]] 0 [30])
    ∧ GoalObj.termsAccess (MinMaxGoal.init 0 : GoalObj Nat) = Except.ok 0
    ∧ GoalObj.termsAccess (MaxMinGoal.init 0 : GoalObj Nat) = Except.ok 0
    ∧ ListHeap.deref (ListHeap.extendAt [[10, 20]] 0 [30]) 0
        = ListHeap.deref [[10, 20]] 0 ++ [30] :=
  add_terms_appends_in_order [[10, 20]] 0 [30] (by decide)

/-- C7: `term()` on `MaximizationGoal(f)` and `MinimizationGoal(f)` returns
exactly the constructor argument `f`, and the only operations defined after
construction (`add_terms`, `add_soft_clause`) raise on these goals without
producing a changed goal — the stored term cannot be changed. -/
theorem term_returns_constructor_argument (f : α) :
    GoalObj.termAccess (MaximizationGoal.init f) = Except.ok f
    ∧ GoalObj.termAccess (MinimizationGoal.init f) = Except.ok f
    ∧ (∀ c w, GoalObj.add_soft_clause (MaximizationGoal.init f) c w
        = Except.error PyErr.attributeError)
    ∧ (∀ c w, GoalObj.add_soft_clause (MinimizationGoal.init f) c w
        = Except.error PyErr.attributeError)
    ∧ (∀ E h, GoalObj.add_terms (MaximizationGoal.init f) E h
        = Except.error PyErr.attributeError)
    ∧ (∀ E h, GoalObj.add_terms (MinimizationGoal.init f) E h
        = Except.error PyErr.attributeError) := by
  exact ⟨rfl, rfl, fun _ _ => rfl, fun _ _ => rfl, fun _ _ => rfl,
    fun _ _ => rfl⟩

/-- C8: the accessors are total over validly constructed goals: `term()` on
the simple goals, `terms()` on the aggregate goals, and iterating the soft
pair sequence of any `MaxSMTGoal` (even one built from mismatched or already
drained inputs) all succeed — none raises. -/
theorem accessors_total (f : α) (a : Nat) (z : ZipObj α Int) :
    (GoalObj.termAccess (MaximizationGoal.init f)).isOk = true
    ∧ (GoalObj.termAccess (MinimizationGoal.init f)).isOk = true
    ∧ (GoalObj.termsAccess (MinMaxGoal.init a : GoalObj α)).isOk = true
    ∧ (GoalObj.termsAccess (MaxMinGoal.init a : GoalObj α)).isOk = true
    ∧ (GoalObj.iterSoft (GoalObj.maxsmt z)).isOk = true := by
  exact ⟨rfl, rfl, rfl, rfl, rfl⟩

/-- C9: a bare `Goal()` instance exists at runtime (non-instantiability is
stated only in the docstring), and on it all five kind predicates and
`is_simple_goal` return false — no predicate identifies it. -/
theorem bare_goal_has_no_kind (α : Type) :
    (GoalObj.base : GoalObj α).is_maximization_goal = false
    ∧ (GoalObj.base : GoalObj α).is_minimization_goal = false
    ∧ (GoalObj.base : GoalObj α).is_minmax_goal = false
    ∧ (GoalObj.base : GoalObj α).is_maxmin_goal = false
    ∧ (GoalObj.base : GoalObj α).is_maxsmt_goal = false
    ∧ (GoalObj.base : GoalObj α).is_simple_goal = false := by
  exact ⟨rfl, rfl, rfl, rfl, rfl, rfl⟩

/-- C10: `MinMaxGoal`/`MaxMinGoal` store the caller's list by reference —
`terms()` returns that same live address `a` on every call, not a copy — and
`add_terms` mutates the list object in place: after it runs, reading through
the caller's original reference `a` (equally, through any address previously
obtained from `terms()`) shows the old contents followed by the appended
elements. -/
theorem terms_is_live_view (h : ListHeap α) (a : Nat) (E : List α)
    (ha : a < h.length) :
    GoalObj.termsAccess (MinMaxGoal.init a : GoalObj α) = Except.ok a
    ∧ GoalObj.termsAccess (MaxMinGoal.init a : GoalObj α) = Except.ok a
    ∧ (∀ h₂, GoalObj.add_terms (MinMaxGoal.init a : GoalObj α) E h
          = Except.ok h₂ →
        ListHeap.deref h₂ a = ListHeap.deref h a ++ E)
    ∧ (∀ h₂, GoalObj.add_terms (MaxMinGoal.init a : GoalObj α) E h
          = Except.ok h₂ →
        ListHeap.deref h₂ a = ListHeap.deref h a ++ E) := by
  have key : ListHeap.deref (ListHeap.extendAt h a E) a
      = ListHeap.deref h a ++ E := by
    simp [ListHeap.extendAt, ListHeap.deref, List.getD, List.getElem?_set_self,
      ha]
  refine ⟨rfl, rfl, ?_, ?_⟩ <;>
    · intro h₂ hh
      cases hh
      exact key

/-- Witness for C10: heap with one list `[10]` at address `0`, appending
`[20]`. -/
theorem terms_is_live_view_witness :
    GoalObj.termsAccess (MinMaxGoal.init 0 : GoalObj Nat) = Except.ok 0
    ∧ GoalObj.termsAccess (MaxMinGoal.init 0 : GoalObj Nat) = Except.ok 0
    ∧ (∀ h₂, GoalObj.add_terms (MinMaxGoal.init 0 : GoalObj Nat) [20] [[10]]
          = Except.ok h₂ →
        ListHeap.deref h₂ 0 = ListHeap.deref [[10]] 0 ++ [20])
    ∧ (∀ h₂, GoalObj.add_terms (MaxMinGoal.init 0 : GoalObj Nat) [20] [[10]]
          = Except.ok h₂ →
        ListHeap.deref h₂ 0 = ListHeap.deref [[10]] 0 ++ [20]) :=
  terms_is_live_view [[10]] 0 [20] (by decide)

end PysmtGoal
